import Mathlib

/-!
Verification of the quota-aware scheduling and learning core of
`news_poster.py` (Marshal91/twitter-news-bot2).

Each definition below is a shallow embedding of a function or data shape
from `src/news_poster.py`; machine time is modelled as rational seconds,
Python strings as Lean `String`, Python dict-backed JSON state as Lean
structures.  Theorems settle the frozen claims C1 - C10.
-/

namespace NewsPoster

/-! Embedding of APIQuotaManager (news_poster.py lines 59-139)

`self.quota` is the JSON dict `{"month", "reads_used", "writes_used"}`
(the `last_reset` field is write-only in the source and is omitted). -/

structure Quota where
  month : String
  reads_used : Nat
  writes_used : Nat
deriving DecidableEq, Repr

/-- `load_quota` (lines 64-97): run only from `__init__`.  Given the wall
clock current month and the persisted file contents, it resets both
counters and advances the month when the stored month is stale, and
otherwise keeps the stored record.  A missing or unreadable file yields a
fresh record. -/
def load_quota (current_month : String) (stored : Option Quota) : Quota :=
  match stored with
  | some data => if data.month = current_month then data else ⟨current_month, 0, 0⟩
  | none => ⟨current_month, 0, 0⟩

/-- `can_read` (lines 107-109): `reads_used + count <= 100`.  Note the
source reads only the counters; the stored month is not consulted. -/
def can_read (q : Quota) (count : Nat) : Bool :=
  q.reads_used + count ≤ 100

/-- `can_write` (lines 111-113): `writes_used + count <= 500`. -/
def can_write (q : Quota) (count : Nat) : Bool :=
  q.writes_used + count ≤ 500

/-- `use_read` (lines 115-121): guarded increment, returns the success
flag and the updated record. -/
def use_read (q : Quota) (count : Nat) : Bool × Quota :=
  if can_read q count then (true, ⟨q.month, q.reads_used + count, q.writes_used⟩)
  else (false, q)

/-- `use_write` (lines 123-129): guarded increment, returns the success
flag and the updated record. -/
def use_write (q : Quota) (count : Nat) : Bool × Quota :=
  if can_write q count then (true, ⟨q.month, q.reads_used, q.writes_used + count⟩)
  else (false, q)

/-- One call in a sequence of consume operations against the ledger. -/
inductive QuotaOp
  | read (count : Nat)
  | write (count : Nat)
deriving DecidableEq, Repr

def apply_quota_op (q : Quota) : QuotaOp → Bool × Quota
  | .read c => use_read q c
  | .write c => use_write q c

/-- State after a sequence of `use_read`/`use_write` calls (each caller
branches on the returned flag; the record evolves regardless). -/
def apply_quota_ops (q : Quota) (ops : List QuotaOp) : Quota :=
  ops.foldl (fun st op => (apply_quota_op st op).2) q

/-! Embedding of Engagement metrics (news_poster.py lines 254-293) -/

/-- The four counters of `tweet.public_metrics` read by
`fetch_tweet_metrics`. -/
structure PublicMetrics where
  like_count : Nat
  retweet_count : Nat
  reply_count : Nat
  quote_count : Nat
deriving DecidableEq, Repr

/-- `engagement_score` (lines 272-277):
`likes*1.0 + retweets*2.0 + replies*3.0 + quotes*2.5`.
Float arithmetic on these small integer inputs is exact, so it is
modelled in ℚ. -/
def engagement_score (m : PublicMetrics) : ℚ :=
  m.like_count * 1 + m.retweet_count * 2 + m.reply_count * 3 + m.quote_count * (5 / 2)

/-- `engagement_rate` (line 286): `engagement_score / max(impressions, 1)`
(the `.get` default and the outer `max` make the denominator at least 1). -/
def engagement_rate (m : PublicMetrics) (impression_count : Nat) : ℚ :=
  engagement_score m / (max impression_count 1 : Nat)

/-- Stated per the words of the spec, for comparison with the source formula:
`engagement_rate = (likes·1.0 + reshares·2.0 + replies·3.0) / impressions`. -/
def spec_engagement_rate (likes reshares replies impressions : Nat) : ℚ :=
  (likes * 1 + reshares * 2 + replies * 3 : ℚ) / impressions

/-! Embedding of PerformanceLearningSystem state (news_poster.py lines 145-563)

A `tweet_record` dict (lines 226-237).  The nested `metrics` dict is
abstracted to its `engagement_score` entry, the only field any analysis
function reads (lines 351, 373, 395, 411, 428, 445). -/

structure TweetRecord where
  id : String
  category : String
  time_slot : String
  posted_at : ℚ
  analyzed : Bool
  metrics : Option ℚ
deriving DecidableEq, Repr

/-- `self.performance_data` (lines 165-169). -/
structure PerformanceData where
  tweets : List TweetRecord
  last_analysis : Option ℚ
  total_analyzed : Nat
deriving DecidableEq, Repr

/-- Line 154. -/
def min_tweets_for_learning : Nat := 10

/-- The list comprehension of line 251: records not yet analyzed. -/
def unanalyzed_tweets (pd : PerformanceData) : List TweetRecord :=
  pd.tweets.filter (fun t => !t.analyzed)

/-- `should_analyze_performance` (lines 243-252).  When no analysis has
ever run it asks only whether at least `min_tweets_for_learning` tweets
are recorded; afterwards it asks whether 86400 seconds have elapsed since
the last analysis and at least one unanalyzed record exists.  It never
consults the read quota. -/
def should_analyze_performance (pd : PerformanceData) (now : ℚ) : Bool :=
  match pd.last_analysis with
  | none => decide (min_tweets_for_learning ≤ pd.tweets.length)
  | some last =>
      decide (86400 ≤ now - last) && decide (0 < (unanalyzed_tweets pd).length)

/-- The records `_analyze_category_performance` (lines 337-357) iterates
over: `analyzed` set and a metrics dict present. -/
def analyzed_tweets (tweets : List TweetRecord) : List TweetRecord :=
  tweets.filter (fun t => t.analyzed && t.metrics.isSome)

/-- `tweet["metrics"]["engagement_score"]` for an analyzed record. -/
def tweet_score (t : TweetRecord) : ℚ := t.metrics.getD 0

/-- The analyzed records of one category (the bucket built at lines
341-352). -/
def category_tweets (tweets : List TweetRecord) (cat : String) : List TweetRecord :=
  (analyzed_tweets tweets).filter (fun t => t.category = cat)

/-- `stats["avg_engagement"] = total_engagement / count` (line 355). -/
def category_avg_engagement (tweets : List TweetRecord) (cat : String) : ℚ :=
  ((category_tweets tweets cat).map tweet_score).sum / (category_tweets tweets cat).length

/-- Whether `insights["category_performance"]` is non-empty after
`_analyze_category_performance` ran on `tweets`: the stats dict gets a key
for the category of every analyzed record, with no minimum-sample gate. -/
def category_performance_nonempty (tweets : List TweetRecord) : Bool :=
  !(analyzed_tweets tweets).isEmpty

/-- `category_scores[category]` of `get_recommended_category` (lines
527-533): the average when the category has a key in
`category_performance`, else 0. -/
def category_score (tweets : List TweetRecord) (cat : String) : ℚ :=
  if (analyzed_tweets tweets).any (fun t => t.category = cat) then
    category_avg_engagement tweets cat
  else 0

/-- `max(category_scores, key=category_scores.get)` (line 536): first key
of maximal score in `available` order (the `max` builtin keeps the earlier
element on ties). -/
def best_category (tweets : List TweetRecord) : List String → String
  | [] => ""
  | c :: rest =>
      rest.foldl
        (fun best cat =>
          if category_score tweets best < category_score tweets cat then cat else best)
        c

/-- `get_recommended_category` (lines 522-538).  The two calls to the
global random source are injected: `rand_below_08` is the outcome of
`random.random() < 0.8`, and `choice` models `random.choice`. -/
def get_recommended_category (tweets : List TweetRecord) (available : List String)
    (rand_below_08 : Bool) (choice : List String → String) : String :=
  if !category_performance_nonempty tweets then choice available
  else if rand_below_08 && !available.isEmpty then best_category tweets available
  else choice available

/-! Embedding of Posted-URL log (news_poster.py lines 1344-1354) -/

/-- Substring containment, the Python string test `needle in hay`. -/
def strContains (hay needle : String) : Bool :=
  decide (List.IsInfix needle.data hay.data)

/-- The Python method `str.strip`: drop whitespace from both ends. -/
def pyStrip (s : String) : String :=
  ⟨((s.data.dropWhile Char.isWhitespace).reverse.dropWhile Char.isWhitespace).reverse⟩

/-- ASCII lowercasing of one character, as `str.lower()` acts on the
ASCII error messages the source matches against. -/
def asciiLower (c : Char) : Char :=
  if 'A' ≤ c ∧ c ≤ 'Z' then Char.ofNat (c.toNat + 32) else c

/-- The Python method `str.lower` on the (ASCII) strings involved. -/
def pyLower (s : String) : String := ⟨s.data.map asciiLower⟩

/-- `has_been_posted` (lines 1344-1349): `url.strip() in f.read()` — a
substring test against the whole file contents.  `posted_log` is the file
contents (`""` when the file does not exist, in which case the source
returns `False` and so does this model, since only `""` is a substring of
`""` — and an empty needle also arises only from an all-whitespace URL). -/
def has_been_posted (posted_log : String) (url : String) : Bool :=
  strContains posted_log (pyStrip url)

/-- `log_posted` (lines 1351-1354): append `url.strip() + "\n"` to the
file. -/
def log_posted (posted_log : String) (url : String) : String :=
  posted_log ++ pyStrip url ++ "\n"

/-- The articles the loop at lines 1390-1392 does not `continue` past:
exactly those whose URL fails `has_been_posted`. -/
def attempted_articles (posted_log : String) (article_urls : List String) : List String :=
  article_urls.filter (fun u => !has_been_posted posted_log u)

/-! Embedding of Publish retry loop (news_poster.py lines 1415-1456) -/

/-- Outcome of one `twitter_client.create_tweet` call: a tweet id, or the
text of the raised exception. -/
inductive PublishOutcome
  | ok (tweet_id : String)
  | err (msg : String)
deriving DecidableEq, Repr

/-- Line 1444: `"403" in error_msg or "forbidden" in error_msg.lower()`. -/
def is_forbidden_error (msg : String) : Bool :=
  strContains msg "403" || strContains (pyLower msg) "forbidden"

/-- Line 1447: `"duplicate" in error_msg.lower()`. -/
def is_duplicate_error (msg : String) : Bool :=
  strContains (pyLower msg) "duplicate"

/-- The `for attempt in range(max_retries)` loop of lines 1418-1456,
with the outcome of each successive `create_tweet` call supplied as a
list (`max_retries = 3` in the source, so the list given has length 3).
Returns (returned flag, quota record, posted-URL log, number of publish
attempts made).  On success the source runs `use_write(1)` then
`log_posted(url)` and returns `True`; on a 403 or duplicate error it
returns `False` at once; on any other error it retries until the
attempts run out. -/
def run_publish_attempts (url : String) :
    List PublishOutcome → Quota → String → Bool × Quota × String × Nat
  | [], q, posted_log => (false, q, posted_log, 0)
  | o :: rest, q, posted_log =>
    match o with
    | .ok _ => (true, (use_write q 1).2, log_posted posted_log url, 1)
    | .err msg =>
      if is_forbidden_error msg then (false, q, posted_log, 1)
      else if is_duplicate_error msg then (false, q, posted_log, 1)
      else
        let r := run_publish_attempts url rest q posted_log
        (r.1, r.2.1, r.2.2.1, r.2.2.2 + 1)

/-! Embedding of Minimum posting interval (news_poster.py lines 1356-1362) -/

/-- Line 583. -/
def POST_INTERVAL_MINUTES : Nat := 90

/-- `can_post_now` (lines 1356-1362): `last_post_time` is the global
last-post timestamp (None at start), times in seconds. -/
def can_post_now (last_post_time : Option ℚ) (now : ℚ) : Bool :=
  match last_post_time with
  | none => true
  | some t => decide ((POST_INTERVAL_MINUTES : ℚ) * 60 ≤ now - t)

/-! Embedding of Tweet length truncation (news_poster.py lines 1412-1413) -/

/-- Python slicing `s[:n]`: the first `n` characters. -/
def pySlice (s : String) (n : Nat) : String := ⟨s.data.take n⟩

/-- Lines 1412-1413: `if len(full_tweet) > 280: full_tweet =
full_tweet[:277] + "..."`, applied immediately before the publish
attempts. -/
def truncate_for_tweet (full_tweet : String) : String :=
  if 280 < full_tweet.length then pySlice full_tweet 277 ++ "..." else full_tweet

/-! Concrete states used by counterexamples. -/

/-- A performance store holding one unanalyzed record, last analysis at
time 0. -/
def c4_state : PerformanceData :=
  ⟨[⟨"1", "Crypto", "08:00", 0, false, none⟩], some 0, 0⟩

/-- A quota record with the monthly read budget fully consumed. -/
def c4_quota : Quota := ⟨"2025-05", 100, 0⟩

/-- A tweet log in which exactly one record has been analyzed. -/
def c5_tweets : List TweetRecord :=
  [⟨"9", "Crypto", "08:00", 0, true, some 3⟩]

/-- A deterministic stand-in for `random.choice`: picks the second
element, to make the cold-start path observable. -/
def pick_second (l : List String) : String := l.getD 1 ""

/-- URLs marked as posted in the C9 scenario. -/
def c9_posted : List String := ["https://a.com/article1", "https://b.org/x"]

/-- The posted-URL log file contents after marking `c9_posted`. -/
def c9_log : String := c9_posted.foldl log_posted ""

/-! Theorems settling the claims. -/

/-- Helper: one ledger call keeps both counters within their caps and
never decreases them. -/
theorem apply_quota_op_step (q : Quota) (op : QuotaOp) :
    q.reads_used ≤ (apply_quota_op q op).2.reads_used ∧
    q.writes_used ≤ (apply_quota_op q op).2.writes_used ∧
    (q.reads_used ≤ 100 → (apply_quota_op q op).2.reads_used ≤ 100) ∧
    (q.writes_used ≤ 500 → (apply_quota_op q op).2.writes_used ≤ 500) := by
  cases op with
  | read c =>
    by_cases h : can_read q c
    · have h100 : q.reads_used + c ≤ 100 := by
        simpa [can_read] using h
      simp [apply_quota_op, use_read, h]
      omega
    · simp [apply_quota_op, use_read, h]
  | write c =>
    by_cases h : can_write q c
    · have h500 : q.writes_used + c ≤ 500 := by
        simpa [can_write] using h
      simp [apply_quota_op, use_write, h]
      omega
    · simp [apply_quota_op, use_write, h]

/-- Helper: the one-step bounds propagate through any sequence of ledger
calls. -/
theorem apply_quota_ops_bounds (ops : List QuotaOp) :
    ∀ q : Quota, q.reads_used ≤ 100 → q.writes_used ≤ 500 →
      (apply_quota_ops q ops).reads_used ≤ 100 ∧
      (apply_quota_ops q ops).writes_used ≤ 500 ∧
      q.reads_used ≤ (apply_quota_ops q ops).reads_used ∧
      q.writes_used ≤ (apply_quota_ops q ops).writes_used := by
  induction ops with
  | nil =>
    intro q hr hw
    exact ⟨hr, hw, le_refl _, le_refl _⟩
  | cons op rest ih =>
    intro q hr hw
    have hstep := apply_quota_op_step q op
    have hrest := ih (apply_quota_op q op).2 (hstep.2.2.1 hr) (hstep.2.2.2 hw)
    have heq : apply_quota_ops q (op :: rest) = apply_quota_ops (apply_quota_op q op).2 rest := by
      simp [apply_quota_ops]
    rw [heq]
    exact ⟨hrest.1, hrest.2.1, le_trans hstep.1 hrest.2.2.1, le_trans hstep.2.1 hrest.2.2.2⟩

/-- C1: the claim says every `can_read`/`can_write`/`use_read`/`use_write`
call first rolls a stale month over (resetting both counters) before
evaluating, and that rollover is not performed only at process start.  In
the source the rollover logic lives solely in `load_quota`, which only
`__init__` calls: with the persisted month `"2025-04"` stale against a
wall clock in May 2025 and the April read budget exhausted, `can_read`
still answers from the April counters and `use_read` mutates nothing,
while the reset the claim requires is exactly what `load_quota` would
produce if it were re-run. -/
theorem quota_rollover_only_at_load :
    can_read ⟨"2025-04", 100, 0⟩ 1 = false ∧
    use_read ⟨"2025-04", 100, 0⟩ 1 = (false, ⟨"2025-04", 100, 0⟩) ∧
    load_quota "2025-05" (some ⟨"2025-04", 100, 0⟩) = ⟨"2025-05", 0, 0⟩ ∧
    can_read (load_quota "2025-05" (some ⟨"2025-04", 100, 0⟩)) 1 = true := by
  decide

/-- C2: across any sequence of `use_read`/`use_write` calls within one
period, each counter is non-decreasing and never exceeds its cap (100
reads, 500 writes); a call that does not fit returns `false` and leaves
the record unchanged, and a call that fits returns `true` and adds
exactly its amount. -/
theorem quota_consume_invariant (q : Quota) (ops : List QuotaOp)
    (hr : q.reads_used ≤ 100) (hw : q.writes_used ≤ 500) :
    ((apply_quota_ops q ops).reads_used ≤ 100 ∧
     (apply_quota_ops q ops).writes_used ≤ 500) ∧
    (q.reads_used ≤ (apply_quota_ops q ops).reads_used ∧
     q.writes_used ≤ (apply_quota_ops q ops).writes_used) ∧
    (∀ c, ¬ q.writes_used + c ≤ 500 → use_write q c = (false, q)) ∧
    (∀ c, q.writes_used + c ≤ 500 →
      use_write q c = (true, ⟨q.month, q.reads_used, q.writes_used + c⟩)) ∧
    (∀ c, ¬ q.reads_used + c ≤ 100 → use_read q c = (false, q)) ∧
    (∀ c, q.reads_used + c ≤ 100 →
      use_read q c = (true, ⟨q.month, q.reads_used + c, q.writes_used⟩)) := by
  have hb := apply_quota_ops_bounds ops q hr hw
  refine ⟨⟨hb.1, hb.2.1⟩, ⟨hb.2.2.1, hb.2.2.2⟩, ?_, ?_, ?_, ?_⟩
  · intro c hc
    simp [use_write, can_write, hc]
  · intro c hc
    simp [use_write, can_write, hc]
  · intro c hc
    simp [use_read, can_read, hc]
  · intro c hc
    simp [use_read, can_read, hc]

/-- Witness for C2, realizing Scenario A of the spec: from
`writes_used = 499`, `use_write 1` succeeds and yields 500, and the next
`use_write 1` fails leaving 500 in place. -/
theorem quota_consume_invariant_witness :
    (0 : Nat) ≤ 100 ∧ (499 : Nat) ≤ 500 ∧
    use_write ⟨"2025-05", 0, 499⟩ 1 = (true, ⟨"2025-05", 0, 500⟩) ∧
    use_write ⟨"2025-05", 0, 500⟩ 1 = (false, ⟨"2025-05", 0, 500⟩) ∧
    (apply_quota_ops ⟨"2025-05", 0, 499⟩ [QuotaOp.write 1, QuotaOp.write 1]).writes_used ≤ 500 := by
  refine ⟨by norm_num, by norm_num, ?_, ?_, ?_⟩
  · exact (quota_consume_invariant ⟨"2025-05", 0, 499⟩ [] (by norm_num) (by norm_num)).2.2.2.1
      1 (by norm_num)
  · exact (quota_consume_invariant ⟨"2025-05", 0, 500⟩ [] (by norm_num) (by norm_num)).2.2.1
      1 (by norm_num)
  · exact (quota_consume_invariant ⟨"2025-05", 0, 499⟩ [QuotaOp.write 1, QuotaOp.write 1]
      (by norm_num) (by norm_num)).1.2

/-- C7: `can_post_now` is true iff the last-post timestamp is unset or at
least `POST_INTERVAL_MINUTES` (90) minutes have elapsed; with
`last_post_time = T` it is false throughout the open interval
`(T, T + 90 min)` and true from `T + 90 min` on. -/
theorem can_post_now_spec (T now : ℚ) :
    can_post_now none now = true ∧
    (can_post_now (some T) now = true ↔ (POST_INTERVAL_MINUTES : ℚ) * 60 ≤ now - T) ∧
    (T < now → now < T + (POST_INTERVAL_MINUTES : ℚ) * 60 →
      can_post_now (some T) now = false) ∧
    ((T + (POST_INTERVAL_MINUTES : ℚ) * 60 ≤ now) → can_post_now (some T) now = true) := by
  refine ⟨rfl, by simp [can_post_now], ?_, ?_⟩
  · intro h1 h2
    simp only [can_post_now, decide_eq_false_iff_not, not_le]
    linarith
  · intro h
    simp only [can_post_now, decide_eq_true_eq]
    linarith

/-- Witness for C7 at `T = 0`: 60 seconds after a post is too early,
5400 seconds (exactly 90 minutes) is allowed. -/
theorem can_post_now_spec_witness :
    (0 : ℚ) < 60 ∧ (60 : ℚ) < 0 + (POST_INTERVAL_MINUTES : ℚ) * 60 ∧
    (0 : ℚ) + (POST_INTERVAL_MINUTES : ℚ) * 60 ≤ 5400 ∧
    can_post_now (some 0) 60 = false ∧
    can_post_now (some 0) 5400 = true := by
  refine ⟨by norm_num, by norm_num [POST_INTERVAL_MINUTES], by norm_num [POST_INTERVAL_MINUTES], ?_, ?_⟩
  · exact (can_post_now_spec 0 60).2.2.1 (by norm_num) (by norm_num [POST_INTERVAL_MINUTES])
  · exact (can_post_now_spec 0 5400).2.2.2 (by norm_num [POST_INTERVAL_MINUTES])

/-- C10: the text handed to `create_tweet` never exceeds 280 characters:
a tweet over 280 characters is replaced by its first 277 characters
followed by `"..."` (total 280), and a tweet within the limit passes
through unchanged. -/
theorem tweet_truncation (full_tweet : String) :
    (truncate_for_tweet full_tweet).length ≤ 280 ∧
    (280 < full_tweet.length →
      truncate_for_tweet full_tweet = pySlice full_tweet 277 ++ "...") ∧
    (full_tweet.length ≤ 280 → truncate_for_tweet full_tweet = full_tweet) := by
  have hdata : (pySlice full_tweet 277 ++ "...").data =
      full_tweet.data.take 277 ++ ['.', '.', '.'] := by
    rw [String.data_append]
    rfl
  have hlen : (pySlice full_tweet 277 ++ "...").length =
      min 277 full_tweet.data.length + 3 := by
    show ((pySlice full_tweet 277 ++ "...").data).length = min 277 full_tweet.data.length + 3
    rw [hdata, List.length_append, List.length_take]
    rfl
  refine ⟨?_, ?_, ?_⟩
  · by_cases h : 280 < full_tweet.length
    · simp only [truncate_for_tweet, if_pos h, hlen]
      omega
    · simp only [truncate_for_tweet, if_neg h]
      omega
  · intro h
    simp [truncate_for_tweet, h]
  · intro h
    simp [truncate_for_tweet, Nat.not_lt.mpr h]

/-- Witness for C10 on a 281-character tweet. -/
theorem tweet_truncation_witness :
    280 < (String.mk (List.replicate 281 'a')).length ∧
    truncate_for_tweet (String.mk (List.replicate 281 'a')) =
      pySlice (String.mk (List.replicate 281 'a')) 277 ++ "..." ∧
    (truncate_for_tweet (String.mk (List.replicate 281 'a'))).length ≤ 280 := by
  have h281 : (String.mk (List.replicate 281 'a')).length = 281 := by
    show (List.replicate 281 'a').length = 281
    rw [List.length_replicate]
  refine ⟨by omega, ?_, ?_⟩
  · exact (tweet_truncation (String.mk (List.replicate 281 'a'))).2.1 (by omega)
  · exact (tweet_truncation (String.mk (List.replicate 281 'a'))).1

/-- Helper: a `strip`ped URL occurs verbatim in the log right after
`log_posted` appends it. -/
theorem isInfix_log_posted (posted_log url : String) :
    List.IsInfix (pyStrip url).data (log_posted posted_log url).data := by
  have hdata : (log_posted posted_log url).data =
      posted_log.data ++ (pyStrip url).data ++ "\n".data := by
    show (posted_log ++ pyStrip url ++ "\n").data = _
    rw [String.data_append, String.data_append]
  rw [hdata]
  exact ⟨posted_log.data, "\n".data, rfl⟩

/-- Helper: appending more URLs to the log preserves substring hits. -/
theorem isInfix_foldl_log_posted (needle : List Char) (later : List String) :
    ∀ posted_log : String, List.IsInfix needle posted_log.data →
      List.IsInfix needle ((later.foldl log_posted posted_log)).data := by
  induction later with
  | nil =>
    intro posted_log h
    simpa using h
  | cons u rest ih =>
    intro posted_log h
    have hstep : List.IsInfix posted_log.data (log_posted posted_log u).data := by
      have hdata : (log_posted posted_log u).data =
          [] ++ posted_log.data ++ ((pyStrip u).data ++ "\n".data) := by
        show (posted_log ++ pyStrip u ++ "\n").data = _
        rw [String.data_append, String.data_append, List.nil_append, List.append_assoc]
      exact ⟨[], (pyStrip u).data ++ "\n".data, hdata.symm⟩
    have : List.IsInfix needle (log_posted posted_log u).data := h.trans hstep
    simpa using ih (log_posted posted_log u) this

/-- C8: once `log_posted` has recorded a URL, `has_been_posted` answers
`true` for it after any number of further `log_posted` calls, and the
article loop of `post_main_content_with_learning` filters it out of the
URLs it would hand to the publish step. -/
theorem mark_posted_suppresses_republish (posted_log url : String) (later : List String)
    (article_urls : List String) :
    has_been_posted (later.foldl log_posted (log_posted posted_log url)) url = true ∧
    (attempted_articles (later.foldl log_posted (log_posted posted_log url))
        article_urls).contains url = false := by
  have hinf : List.IsInfix (pyStrip url).data
      ((later.foldl log_posted (log_posted posted_log url))).data :=
    isInfix_foldl_log_posted (pyStrip url).data later (log_posted posted_log url)
      (isInfix_log_posted posted_log url)
  have hpost : has_been_posted (later.foldl log_posted (log_posted posted_log url)) url = true :=
    decide_eq_true hinf
  refine ⟨hpost, ?_⟩
  have hnot : url ∉ attempted_articles
      (later.foldl log_posted (log_posted posted_log url)) article_urls := by
    intro hmem
    have hkept := (List.mem_filter.mp hmem).2
    rw [hpost] at hkept
    simp at hkept
  simpa using hnot

/-- C9: `has_been_posted` is substring containment against the whole
concatenated log file, not set membership: `"https://a.com"` (a prefix of
a posted URL) and `"article1\nhttps"` (a fragment spanning the newline
between two logged URLs) were never marked as posted, yet both test
positive against the log left by marking `c9_posted`. -/
theorem substring_false_positive :
    c9_posted.contains "https://a.com" = false ∧
    has_been_posted c9_log "https://a.com" = true ∧
    c9_posted.contains "article1\nhttps" = false ∧
    has_been_posted c9_log "article1\nhttps" = true := by
  decide

/-- C6: when the first `create_tweet` attempt raises a non-retryable
error (a 403/forbidden error or a platform duplicate-content rejection),
the retry loop stops after exactly that one attempt, returns failure, and
leaves both the write quota and the posted-URL log untouched. -/
theorem non_retryable_publish_aborts (url msg : String) (rest : List PublishOutcome)
    (q : Quota) (posted_log : String)
    (h : is_forbidden_error msg = true ∨ is_duplicate_error msg = true) :
    run_publish_attempts url (PublishOutcome.err msg :: rest) q posted_log =
      (false, q, posted_log, 1) := by
  rcases h with h | h
  · simp [run_publish_attempts, h]
  · by_cases hf : is_forbidden_error msg
    · simp [run_publish_attempts, hf]
    · simp [run_publish_attempts, hf, h]

/-- Witness for C6 on the duplicate-content message of the platform: one
attempt, no quota debit, no log append, failure returned — even though a
second attempt could have succeeded. -/
theorem non_retryable_publish_aborts_witness :
    is_duplicate_error "You are not allowed to create a Tweet with duplicate content." = true ∧
    run_publish_attempts "https://a.com/x"
        [PublishOutcome.err "You are not allowed to create a Tweet with duplicate content.",
         PublishOutcome.ok "1"]
        ⟨"2025-05", 3, 7⟩ "old\n" =
      (false, ⟨"2025-05", 3, 7⟩, "old\n", 1) := by
  have hdup : is_duplicate_error
      "You are not allowed to create a Tweet with duplicate content." = true := by decide
  exact ⟨hdup,
    non_retryable_publish_aborts "https://a.com/x"
      "You are not allowed to create a Tweet with duplicate content."
      [PublishOutcome.ok "1"] ⟨"2025-05", 3, 7⟩ "old\n" (Or.inr hdup)⟩

/-- C3 counterexample: the formula of the claim
`(likes·1 + reshares·2 + replies·3) / impressions` does not match the
source.  With `likes=10, retweets=5, replies=2, quotes=1,
impressions=1000` the source rate is `28.5/1000 = 57/2000`, not
`26/1000`; and with zero impressions the source divides by
`max(impressions,1) = 1`, so the rate equals the full weighted score
(here 26), not zero. -/
theorem engagement_rate_deviates_from_claim :
    engagement_rate ⟨10, 5, 2, 1⟩ 1000 = 57 / 2000 ∧
    spec_engagement_rate 10 5 2 1000 = 26 / 1000 ∧
    (57 / 2000 : ℚ) ≠ 26 / 1000 ∧
    engagement_rate ⟨10, 5, 2, 0⟩ 0 = 26 ∧ (26 : ℚ) ≠ 0 := by
  have hm1 : (max 1000 1 : Nat) = 1000 := rfl
  have hm0 : (max 0 1 : Nat) = 1 := rfl
  refine ⟨?_, ?_, by norm_num, ?_, by norm_num⟩
  · rw [engagement_rate, hm1, engagement_score]
    norm_num
  · rw [spec_engagement_rate]
    norm_num
  · rw [engagement_rate, hm0, engagement_score]
    norm_num

/-- C3 amended: `engagement_rate` equals
`(likes·1.0 + retweets·2.0 + replies·3.0 + quotes·2.5) / max(impressions, 1)`;
with at least one impression the denominator is `impressions` itself, so
when additionally `quote_count = 0` the three-term formula of the claim holds
(in particular the example of the claim, `26/1000 = 0.026`); with zero
impressions the denominator is 1 — no division by zero ever occurs, but
the rate is the weighted score rather than zero/undefined. -/
theorem engagement_rate_formula (m : PublicMetrics) (n : Nat) (h : 1 ≤ n) :
    engagement_rate m n = engagement_score m / n ∧
    engagement_rate m 0 = engagement_score m ∧
    (m.quote_count = 0 →
      engagement_rate m n = spec_engagement_rate m.like_count m.retweet_count m.reply_count n) := by
  have hmax : (max n 1 : Nat) = n := Nat.max_eq_left h
  have hmax0 : (max 0 1 : Nat) = 1 := rfl
  refine ⟨?_, ?_, ?_⟩
  · rw [engagement_rate, hmax]
  · rw [engagement_rate, hmax0]
    norm_num
  · intro hq
    rw [engagement_rate, hmax, engagement_score, spec_engagement_rate, hq]
    push_cast
    ring

/-- Witness for the amended C3 statement, on the Scenario C input of the spec:
`likes=10, reshares=5, replies=2, impressions=1000` (and no quote tweets)
gives `26/1000 = 0.026`. -/
theorem engagement_rate_formula_witness :
    (1 : Nat) ≤ 1000 ∧ engagement_rate ⟨10, 5, 2, 0⟩ 1000 = 26 / 1000 := by
  refine ⟨by norm_num, ?_⟩
  have h := (engagement_rate_formula ⟨10, 5, 2, 0⟩ 1000 (by norm_num)).2.2 rfl
  rw [h, spec_engagement_rate]
  norm_num

/-- C4 counterexample: the claim requires `should_analyze_performance` to
be true only when the `can_read` check of the quota ledger admits a read; the source
never consults the quota.  With the previous analysis 90000 seconds ago,
one unanalyzed record, and all 100 monthly reads spent,
`should_analyze_performance` still answers true while `can_read` is
false. -/
theorem should_analyze_ignores_read_quota :
    should_analyze_performance c4_state 90000 = true ∧
    can_read c4_quota 1 = false := by
  constructor
  · simp only [should_analyze_performance, c4_state, unanalyzed_tweets, Bool.and_eq_true,
      decide_eq_true_eq]
    constructor
    · norm_num
    · simp
  · decide

/-- C4 amended: `should_analyze_performance` is true iff either no
analysis has ever run and at least `min_tweets_for_learning` (10) tweets
are recorded, or an analysis has run, at least 86400 seconds have elapsed
since it, and some unanalyzed record exists.  The read quota is not part
of the trigger (it is checked only later, inside
`fetch_tweet_metrics`). -/
theorem should_analyze_characterization (pd : PerformanceData) (now : ℚ) :
    should_analyze_performance pd now = true ↔
      ((pd.last_analysis = none ∧ min_tweets_for_learning ≤ pd.tweets.length) ∨
       (∃ last, pd.last_analysis = some last ∧ 86400 ≤ now - last ∧
         ∃ t ∈ pd.tweets, t.analyzed = false)) := by
  cases hla : pd.last_analysis with
  | none =>
    simp [should_analyze_performance, hla]
  | some last =>
    simp only [should_analyze_performance, hla, Bool.and_eq_true, decide_eq_true_eq,
      unanalyzed_tweets]
    constructor
    · rintro ⟨h1, h2⟩
      refine Or.inr ⟨last, rfl, h1, ?_⟩
      obtain ⟨t, ht⟩ := List.exists_mem_of_length_pos h2
      have := List.mem_filter.mp ht
      exact ⟨t, this.1, by simpa using this.2⟩
    · rintro (⟨hnone, _⟩ | ⟨last2, heq, h1, t, hmem, hana⟩)
      · exact absurd hnone (by simp)
      · injection heq with hinj
        subst hinj
        refine ⟨h1, ?_⟩
        exact List.length_pos_of_mem (List.mem_filter.mpr ⟨hmem, by simp [hana]⟩)

/-- C5 counterexample: the claim says that below
`min_tweets_for_learning = 10` analyzed posts the published insights stay
empty and the selector uses its random cold-start path.  In the source
`_analyze_category_performance` publishes `category_performance` with no
minimum-sample gate: after a single analyzed record (1 < 10) the insights
are non-empty, and `get_recommended_category` (with the 80% exploitation
draw) returns the top-scored category instead of the `random.choice`
cold-start pick. -/
theorem insights_nonempty_below_minimum :
    (analyzed_tweets c5_tweets).length = 1 ∧
    (analyzed_tweets c5_tweets).length < min_tweets_for_learning ∧
    category_performance_nonempty c5_tweets = true ∧
    get_recommended_category c5_tweets ["Crypto", "F1"] true pick_second = "Crypto" ∧
    pick_second ["Crypto", "F1"] = "F1" := by
  have hany : (analyzed_tweets c5_tweets).any (fun t => t.category = "Crypto") = true := by
    decide
  have hanyF : (analyzed_tweets c5_tweets).any (fun t => t.category = "F1") = false := by
    decide
  have hscoreC : category_score c5_tweets "Crypto" = 3 := by
    rw [category_score, if_pos hany, category_avg_engagement]
    simp [category_tweets, analyzed_tweets, c5_tweets, tweet_score]
  have hscoreF : category_score c5_tweets "F1" = 0 := by
    rw [category_score, if_neg (by simp [hanyF])]
  have hbest : best_category c5_tweets ["Crypto", "F1"] = "Crypto" := by
    simp only [best_category, List.foldl_cons, List.foldl_nil, hscoreC, hscoreF]
    rw [if_neg (by norm_num : ¬ (3 : ℚ) < 0)]
  refine ⟨by decide, by decide, by decide, ?_, by decide⟩
  rw [get_recommended_category]
  rw [if_neg (by decide)]
  rw [if_pos (by decide)]
  exact hbest

/-- C5 amended: `category_performance` becomes non-empty as soon as a
single analyzed record with metrics exists — the 10-post minimum gates
only the first-ever analysis trigger and the best-practices extraction,
not the publication of insights; `get_recommended_category` takes the
random cold-start path exactly when `category_performance` is empty. -/
theorem insights_gate_characterization (tweets : List TweetRecord) (available : List String)
    (rand_below_08 : Bool) (choice : List String → String) :
    (category_performance_nonempty tweets = true ↔
      ∃ t ∈ tweets, t.analyzed = true ∧ t.metrics.isSome = true) ∧
    (category_performance_nonempty tweets = false →
      get_recommended_category tweets available rand_below_08 choice = choice available) := by
  constructor
  · rw [category_performance_nonempty]
    constructor
    · intro h
      have hne : analyzed_tweets tweets ≠ [] := by
        intro he
        rw [he] at h
        simp at h
      obtain ⟨t, ht⟩ := List.exists_mem_of_ne_nil _ hne
      have hsplit := List.mem_filter.mp ht
      exact ⟨t, hsplit.1, by simpa [Bool.and_eq_true] using hsplit.2⟩
    · rintro ⟨t, hmem, hana, hsome⟩
      have ht : t ∈ analyzed_tweets tweets :=
        List.mem_filter.mpr ⟨hmem, by simp [hana, hsome]⟩
      have hne : analyzed_tweets tweets ≠ [] := List.ne_nil_of_mem ht
      simp [List.isEmpty_iff, hne]
  · intro h
    simp [get_recommended_category, h]

/-- Witness for the amended C5 statement: with an empty outcome log the
insights are empty and the selector returns the injected `random.choice`
result. -/
theorem insights_gate_characterization_witness :
    category_performance_nonempty [] = false ∧
    get_recommended_category [] ["Crypto"] true pick_second = pick_second ["Crypto"] := by
  have he : category_performance_nonempty [] = false := rfl
  exact ⟨he, (insights_gate_characterization [] ["Crypto"] true pick_second).2 he⟩

end NewsPoster
